import Mathlib

set_option maxRecDepth 4000

namespace GoogleTrends

/-
Shallow embedding of the request-shaping, transport and response-extraction
core of the googletrends client (src/client.go, src/gogtrends.go, widget
collection methods from the package sources).  Machine strings are Lean
Strings, Go byte indices are character indices (all identifiers involved are
ASCII), Go maps that the code reads only through len / single-key assignment
are association lists wrapped in Option to distinguish a nil map from a
present empty map, and the injected HTTP sender is a function from the call
number to either a response or a transport error.
-/

/-- JSON values as produced by Go encoding/json decoding into an empty
interface: null, booleans, numbers (kept as source text, the client never
reads a numeric value), strings, arrays and objects. -/
inductive JVal where
  | null : JVal
  | jbool : Bool → JVal
  | jnum : String → JVal
  | jstr : String → JVal
  | jarr : List JVal → JVal
  | jobj : List (String × JVal) → JVal

/-- JSON insignificant whitespace (RFC 8259, as accepted by encoding/json). -/
def isJsonWs (c : Char) : Bool :=
  c = ' ' || c = '\t' || c = '\n' || c = '\r'

/-- Value of a hexadecimal digit, for string escapes of the form backslash-u. -/
def hexDigit? (c : Char) : Option Nat :=
  if '0' ≤ c ∧ c ≤ '9' then some (c.toNat - 48)
  else if 'a' ≤ c ∧ c ≤ 'f' then some (c.toNat - 87)
  else if 'A' ≤ c ∧ c ≤ 'F' then some (c.toNat - 55)
  else none

/-- Remainder of a JSON string literal after the opening quote: unescape
until the closing quote, rejecting unescaped control characters. -/
def parseStringRest (fuel : Nat) (cs : List Char) (acc : List Char) :
    Option (String × List Char) :=
  match fuel with
  | 0 => none
  | fuel' + 1 =>
    match cs with
    | [] => none
    | '"' :: rest => some (⟨acc.reverse⟩, rest)
    | '\\' :: e :: rest =>
      match e with
      | '"' => parseStringRest fuel' rest ('"' :: acc)
      | '\\' => parseStringRest fuel' rest ('\\' :: acc)
      | '/' => parseStringRest fuel' rest ('/' :: acc)
      | 'b' => parseStringRest fuel' rest ('\x08' :: acc)
      | 'f' => parseStringRest fuel' rest ('\x0c' :: acc)
      | 'n' => parseStringRest fuel' rest ('\n' :: acc)
      | 'r' => parseStringRest fuel' rest ('\r' :: acc)
      | 't' => parseStringRest fuel' rest ('\t' :: acc)
      | 'u' =>
        match rest with
        | h1 :: h2 :: h3 :: h4 :: rest' =>
          match hexDigit? h1, hexDigit? h2, hexDigit? h3, hexDigit? h4 with
          | some a, some b, some c, some d =>
            parseStringRest fuel' rest'
              (Char.ofNat (((a * 16 + b) * 16 + c) * 16 + d) :: acc)
          | _, _, _, _ => none
        | _ => none
      | _ => none
    | c :: rest =>
      if c.toNat < 32 then none else parseStringRest fuel' rest (c :: acc)

/-- One or more decimal digits, returning them with the rest of the input. -/
def digits1 (cs : List Char) : Option (List Char × List Char) :=
  let ds := cs.takeWhile (fun c => '0' ≤ c && c ≤ '9')
  if ds.isEmpty then none else some (ds, cs.drop ds.length)

/-- Integer part of a JSON number: a single zero, or a nonzero leading digit
followed by digits. -/
def parseIntPart : List Char → Option (List Char × List Char)
  | '0' :: t => some (['0'], t)
  | cs => digits1 cs

/-- Optional fractional part of a JSON number. -/
def parseFracPart : List Char → Option (List Char × List Char)
  | '.' :: t =>
    match digits1 t with
    | some (ds, r) => some ('.' :: ds, r)
    | none => none
  | cs => some ([], cs)

/-- Optional exponent part of a JSON number. -/
def parseExpPart : List Char → Option (List Char × List Char)
  | [] => some ([], [])
  | c :: t =>
    if c = 'e' ∨ c = 'E' then
      match t with
      | [] => none
      | s :: t2 =>
        if s = '+' ∨ s = '-' then
          match digits1 t2 with
          | some (ds, r) => some (c :: s :: ds, r)
          | none => none
        else
          match digits1 t with
          | some (ds, r) => some (c :: ds, r)
          | none => none
    else some ([], c :: t)

/-- JSON number after an optional leading minus sign. -/
def parseNumAfterSign (cs : List Char) : Option (List Char × List Char) :=
  match parseIntPart cs with
  | none => none
  | some (ip, r1) =>
    match parseFracPart r1 with
    | none => none
    | some (fp, r2) =>
      match parseExpPart r2 with
      | none => none
      | some (ep, r3) => some (ip ++ fp ++ ep, r3)

/-- Full JSON number literal, sign included. -/
def parseNumberChars (cs : List Char) : Option (List Char × List Char) :=
  match cs with
  | '-' :: t =>
    match parseNumAfterSign t with
    | some (n, r) => some ('-' :: n, r)
    | none => none
  | _ => parseNumAfterSign cs

mutual

/-- Recursive-descent JSON value parser (fuel-indexed); models the grammar
encoding/json accepts when decoding into an empty interface. -/
def parseValue (fuel : Nat) (cs : List Char) : Option (JVal × List Char) :=
  match fuel with
  | 0 => none
  | fuel' + 1 =>
    match cs.dropWhile isJsonWs with
    | [] => none
    | c :: rest =>
      if c = '"' then
        match parseStringRest (rest.length + 1) rest [] with
        | some (s, r) => some (.jstr s, r)
        | none => none
      else if c = '[' then
        match rest.dropWhile isJsonWs with
        | ']' :: r => some (.jarr [], r)
        | _ => parseElems fuel' rest []
      else if c = '{' then
        match rest.dropWhile isJsonWs with
        | '}' :: r => some (.jobj [], r)
        | _ => parseFields fuel' rest []
      else if c = 't' then
        match rest with
        | 'r' :: 'u' :: 'e' :: r => some (.jbool true, r)
        | _ => none
      else if c = 'f' then
        match rest with
        | 'a' :: 'l' :: 's' :: 'e' :: r => some (.jbool false, r)
        | _ => none
      else if c = 'n' then
        match rest with
        | 'u' :: 'l' :: 'l' :: r => some (.null, r)
        | _ => none
      else
        match parseNumberChars (c :: rest) with
        | some (n, r) => some (.jnum ⟨n⟩, r)
        | none => none

/-- Comma-separated array elements up to the closing bracket. -/
def parseElems (fuel : Nat) (cs : List Char) (acc : List JVal) :
    Option (JVal × List Char) :=
  match fuel with
  | 0 => none
  | fuel' + 1 =>
    match parseValue fuel' cs with
    | none => none
    | some (v, r) =>
      match r.dropWhile isJsonWs with
      | ',' :: r2 => parseElems fuel' r2 (v :: acc)
      | ']' :: r2 => some (.jarr (v :: acc).reverse, r2)
      | _ => none

/-- Comma-separated object members up to the closing brace. -/
def parseFields (fuel : Nat) (cs : List Char) (acc : List (String × JVal)) :
    Option (JVal × List Char) :=
  match fuel with
  | 0 => none
  | fuel' + 1 =>
    match cs.dropWhile isJsonWs with
    | '"' :: r =>
      match parseStringRest (r.length + 1) r [] with
      | none => none
      | some (k, r2) =>
        match r2.dropWhile isJsonWs with
        | ':' :: r3 =>
          match parseValue fuel' r3 with
          | none => none
          | some (v, r4) =>
            match r4.dropWhile isJsonWs with
            | ',' :: r5 => parseFields fuel' r5 ((k, v) :: acc)
            | '}' :: r5 => some (.jobj ((k, v) :: acc).reverse, r5)
            | _ => none
        | _ => none
    | _ => none

end

/-- Decode a complete JSON document: one value, with nothing but whitespace
after it (json.Unmarshal rejects trailing data). -/
def decodeJSON (s : String) : Option JVal :=
  match parseValue (2 * s.data.length + 4) s.data with
  | some (v, rest) => if rest.dropWhile isJsonWs = [] then some v else none
  | none => none

/-- Models json.Unmarshal of a string into a Go slice of empty interfaces: a
JSON array yields its elements, JSON null leaves the slice nil (length 0),
and any other document is a type-mismatch error. -/
def decodeIntoSlice (s : String) : Option (List JVal) :=
  match decodeJSON s with
  | some (.jarr xs) => some xs
  | some .null => some []
  | _ => none

/-- Character class trimmed by strings.TrimSpace, restricted to the Latin-1
range (the responses involved are ASCII). -/
def isGoSpace (c : Char) : Bool :=
  c = ' ' || c = '\t' || c = '\n' || c = '\x0b' || c = '\x0c' || c = '\r' ||
    c = '\u0085' || c = ' '

/-- Leading and trailing whitespace removal, as strings.TrimSpace. -/
def goTrimSpace (cs : List Char) : List Char :=
  ((cs.dropWhile isGoSpace).reverse.dropWhile isGoSpace).reverse

/-- Models strings.Split with a one-character separator: the result always
has at least one (possibly empty) piece. -/
def splitOnChar (sep : Char) (cs : List Char) : List (List Char) :=
  match cs with
  | [] => [[]]
  | c :: rest =>
    let r := splitOnChar sep rest
    if c = sep then [] :: r
    else
      match r with
      | [] => [[c]]
      | h :: t => (c :: h) :: t

/-- Lines of the response body, split on the newline character. -/
def splitLines (text : String) : List String :=
  (splitOnChar '\n' text.data).map (fun cs => (⟨cs⟩ : String))

/-- For one entry of the inner item list: the entry contributes its first
element when the entry is a non-empty array whose first element is a string,
and is silently skipped otherwise (client.go, extractJSONFromResponse inner
loop). -/
def itemHead? (item : JVal) : Option String :=
  match item with
  | .jarr (h :: _) =>
    match h with
    | .jstr topic => some topic
    | _ => none
  | _ => none

/-- The per-line closure of extractJSONFromResponse: decode the trimmed line
into a slice; when it has more than two elements, require the first element
to be an array of length at least three whose third element is a string that
itself decodes to a slice; when that slice has more than one element, its
second element must be the item list, from which the qualifying first
components are collected.  `none` models the closure returning an error,
`some ts` models success with `ts` appended to the accumulated result. -/
def lineParse (t : String) : Option (List String) :=
  match decodeIntoSlice t with
  | none => none
  | some intermediate =>
    if intermediate.length > 2 then
      match intermediate with
      | [] => none
      | item0 :: _ =>
        match item0 with
        | .jarr secondItem =>
          if secondItem.length < 3 then none
          else
            match secondItem[2]? with
            | some (JVal.jstr jsonStr) =>
              (match decodeIntoSlice jsonStr with
               | none => none
               | some data =>
                 if data.length > 1 then
                   match data[1]? with
                   | some (JVal.jarr items) => some (items.filterMap itemHead?)
                   | _ => none
                 else some [])
            | _ => none
        | _ => none
    else some []

/-- Whether the trimmed line is shaped like a JSON array: it starts with an
opening and ends with a closing square bracket. -/
def isBracketLine (t : String) : Bool :=
  t.data.head? == some '[' && t.data.getLast? == some ']'

/-- Outcome of one line of the scan: `none` when the line is skipped or its
decode fails, `some ts` when the per-line closure succeeds contributing
`ts`. -/
def lineYield (line : String) : Option (List String) :=
  let t : String := ⟨goTrimSpace line.data⟩
  if isBracketLine t then lineParse t else none

/-- The scanning loop of extractJSONFromResponse: walk the lines, skip lines
not shaped like a JSON array, drop lines whose decode fails, append each
successful line's strings to the running result, and return as soon as the
running result is non-empty. -/
def extractLoop (result : List String) : List String → Option (List String)
  | [] => none
  | line :: rest =>
    let t : String := ⟨goTrimSpace line.data⟩
    if isBracketLine t then
      match lineParse t with
      | none => extractLoop result rest
      | some ts =>
        let result2 := result ++ ts
        if 0 < result2.length then some result2 else extractLoop result2 rest
    else extractLoop result rest

/-- extractJSONFromResponse (client.go): scan the response lines and either
return the first non-empty accumulation or report that no valid JSON was
found. -/
def extractJSONFromResponse (text : String) : Except String (List String) :=
  match extractLoop [] (splitLines text) with
  | some r => Except.ok r
  | none => Except.error "no valid JSON found in response"

/-- An outgoing HTTP request as assembled by the client (client.go, do and
doPost): method, target URL, the headers the code sets, and the POST
payload (empty for GET, whose body is nil). -/
structure GoRequest where
  method : String
  urlStr : String
  acceptHeader : Option String
  contentTypeHeader : Option String
  cookieHeader : Option String
  payload : String
deriving DecidableEq

/-- An HTTP response as observed by the client: status code, status text,
the Set-Cookie header (Header.Get yields the empty string when the header is
absent), and the body. -/
structure GoHttpResponse where
  statusCode : Nat
  status : String
  setCookieHeader : String
  body : String
deriving DecidableEq

/-- The error shapes a transport operation can return: the initial send's
error wrapped with the errDoRequest message, the post-429 resend's error
returned as-is, and ErrRequestFailed carrying the status code and text. -/
inductive TransportError where
  | doRequestFailed : String → TransportError
  | resendFailed : String → TransportError
  | requestFailed : Nat → String → TransportError
deriving DecidableEq

/-- Rendering of each transport error, following the fmt.Errorf format
strings of client.go and errors.go (errDoRequest, ErrRequestFailed,
errReqDataF). -/
def TransportError.message : TransportError → String
  | .doRequestFailed cause => "failed to perform request: " ++ cause
  | .resendFailed cause => cause
  | .requestFailed code status =>
      "failed to perform http request: request data: code = " ++ toString code ++
        ", status = " ++ status

/-- What a transport operation produced: its returned body or error, the
requests handed to the injected sender in order, and the client's session
cookie after the call. -/
structure TransportResult where
  outcome : Except TransportError String
  sentRequests : List GoRequest
  cookie : String

/-- First semicolon-delimited segment of a Set-Cookie header value, the part
the client stores as its session cookie. -/
def firstCookieSegment (h : String) : String :=
  match splitOnChar ';' h.data with
  | [] => ""
  | seg :: _ => ⟨seg⟩

/-- Status check shared by both verbs: any final status other than 200 is an
ErrRequestFailed carrying the code and status text, otherwise the body is
returned. -/
def respOutcome (resp : GoHttpResponse) : Except TransportError String :=
  if resp.statusCode ≠ 200 then
    Except.error (TransportError.requestFailed resp.statusCode resp.status)
  else Except.ok resp.body

/-- The shared send-and-retry body of do and doPost (client.go): send the
request; a sender error is wrapped and returned; on status 429 split the
Set-Cookie header on semicolons (never an empty list), store the first
segment as the client cookie, set it as the Cookie header of the current
request and resend exactly once, a resend error being returned unwrapped;
finally apply the status check to whichever response is current. -/
def runTransport (r0 : GoRequest) (clientCookie : String)
    (sender : Nat → Except String GoHttpResponse) : TransportResult :=
  match sender 0 with
  | Except.error e =>
    ⟨Except.error (TransportError.doRequestFailed e), [r0], clientCookie⟩
  | Except.ok resp =>
    if resp.statusCode = 429 then
      match splitOnChar ';' resp.setCookieHeader.data with
      | [] => ⟨respOutcome resp, [r0], clientCookie⟩
      | seg :: _ =>
        let newCookie : String := ⟨seg⟩
        let r1 := { r0 with cookieHeader := some newCookie }
        match sender 1 with
        | Except.error e =>
          ⟨Except.error (TransportError.resendFailed e), [r0, r1], newCookie⟩
        | Except.ok resp2 => ⟨respOutcome resp2, [r0, r1], newCookie⟩
    else ⟨respOutcome resp, [r0], clientCookie⟩

/-- The GET request assembled by do: Accept header set to JSON, the session
cookie attached when non-empty, nil body. -/
def getRequest (clientCookie : String) (u : String) : GoRequest :=
  { method := "GET", urlStr := u, acceptHeader := some "application/json",
    contentTypeHeader := none,
    cookieHeader := if clientCookie.length ≠ 0 then some clientCookie else none,
    payload := "" }

/-- The POST request assembled by doPost: form content type, the session
cookie attached when non-empty, the payload as body. -/
def postRequest (clientCookie : String) (u : String) (payload : String) :
    GoRequest :=
  { method := "POST", urlStr := u, acceptHeader := none,
    contentTypeHeader := some "application/x-www-form-urlencoded;charset=UTF-8",
    cookieHeader := if clientCookie.length ≠ 0 then some clientCookie else none,
    payload := payload }

/-- gClient.do (client.go): GET with the shared retry body. -/
def clientDo (clientCookie : String) (u : String)
    (sender : Nat → Except String GoHttpResponse) : TransportResult :=
  runTransport (getRequest clientCookie u) clientCookie sender

/-- gClient.doPost (client.go): POST with the shared retry body. -/
def clientDoPost (clientCookie : String) (u : String) (payload : String)
    (sender : Nat → Except String GoHttpResponse) : TransportResult :=
  runTransport (postRequest clientCookie u payload) clientCookie sender

/-- One keyword restriction (gogtrends.go KeywordRestriction). -/
structure KeywordRestriction where
  restrictionType : String
  value : String
deriving DecidableEq

/-- The keyword restriction list (gogtrends.go KeywordsRestriction). -/
structure KeywordsRestriction where
  keyword : List KeywordRestriction
deriving DecidableEq

/-- A widget comparison item (gogtrends.go WidgetComparisonItem).  The Geo
field is a Go map from string to string; `none` models a nil map, `some m`
a present map with association list `m`. -/
structure WidgetComparisonItem where
  geo : Option (List (String × String))
  time : String
  complexKeywordsRestriction : KeywordsRestriction
  originalTimeRangeForExploreUrl : String
deriving DecidableEq

/-- Additional request options (gogtrends.go RequestOptions). -/
structure RequestOptions where
  property : String
  backend : String
  category : Int
deriving DecidableEq

/-- The widget's embedded sub-request (gogtrends.go WidgetResponse).  The
comparison items are pointers in Go, hence Option entries.  The top-level
Geo field of the Go struct has type empty-interface and is never read or
written by any of the embedded operations, so it is omitted here. -/
structure WidgetResponse where
  time : String
  resolution : String
  locale : String
  restriction : WidgetComparisonItem
  compItem : List (Option WidgetComparisonItem)
  requestOpt : RequestOptions
  keywordType : String
  metric : List String
  language : String
  trendinessSettings : List (String × String)
  dataMode : String
  userConfig : List (String × String)
  userCountryCode : String
deriving DecidableEq

/-- A widget as returned by Explore (gogtrends.go ExploreWidget).  The
Request field is a pointer in Go; it is modeled by the pointed-to value,
which the detail-fetch operations read and update through the widget. -/
structure ExploreWidget where
  token : String
  widgetType : String
  title : String
  id : String
  request : WidgetResponse
deriving DecidableEq

/-- Length of a possibly-nil Go map: len of a nil map is zero. -/
def geoLen (g : Option (List (String × String))) : Nat :=
  match g with
  | none => 0
  | some m => m.length

/-- Go map assignment m[k] = v on a non-nil map: replace the entry when the
key is present, append it otherwise. -/
def mapSet (m : List (String × String)) (k v : String) :
    List (String × String) :=
  if m.any (fun p => p.1 = k) then
    m.map (fun p => if p.1 = k then (k, v) else p)
  else m ++ [(k, v)]

/-- The geo defaulting loop of InterestOverTime (gogtrends.go): every
non-nil comparison item whose Geo map has length zero has its Geo replaced
by a fresh single-entry map from the empty string to the empty string. -/
def normalizeCompItemGeo (v : Option WidgetComparisonItem) :
    Option WidgetComparisonItem :=
  match v with
  | none => none
  | some item =>
    if geoLen item.geo = 0 then some { item with geo := some [("", "")] }
    else some item

/-- What InterestOverTime does to the widget's sub-request before
serializing it into the req parameter. -/
def interestOverTimePrep (r : WidgetResponse) : WidgetResponse :=
  { r with compItem := r.compItem.map normalizeCompItemGeo }

/-- What InterestByLocation does to the widget's sub-request before
serializing it: set DataMode to PERCENTAGES when there is more than one
comparison item, and nothing else. -/
def interestByLocationPrep (r : WidgetResponse) : WidgetResponse :=
  if r.compItem.length > 1 then { r with dataMode := "PERCENTAGES" } else r

/-- What Related does to the widget's sub-request before serializing it:
when the restriction's Geo map has length zero, assign the empty-string key.
A nil map passes the length test and the assignment then panics at runtime
(assignment to entry in nil map), modeled by the error branch. -/
def relatedGeoNormalize (r : WidgetResponse) : Except String WidgetResponse :=
  if geoLen r.restriction.geo = 0 then
    match r.restriction.geo with
    | none => Except.error "assignment to entry in nil map"
    | some m =>
      Except.ok
        { r with restriction := { r.restriction with geo := some (mapSet m "" "") } }
  else Except.ok r

/-- Whether the character list starts with the given pattern, as
strings.HasPrefix on the underlying bytes (ASCII identifiers). -/
def charsStartWith : List Char → List Char → Bool
  | _, [] => true
  | [], _ :: _ => false
  | c :: cs, p :: ps => c = p && charsStartWith cs ps

/-- Result of Related up to the point where the sub-request is handed to
serialization: the widget-type precondition failure, a runtime panic, or
the prepared sub-request. -/
inductive RelatedPrepResult where
  | invalidWidgetType : RelatedPrepResult
  | panicked : String → RelatedPrepResult
  | prepared : WidgetResponse → RelatedPrepResult
deriving DecidableEq

/-- Related (gogtrends.go) up to serialization: reject widgets whose ID has
neither related prefix, then apply the restriction-geo assignment. -/
def relatedPrepare (w : ExploreWidget) : RelatedPrepResult :=
  if !(charsStartWith w.id.data "RELATED_QUERIES".data ||
      charsStartWith w.id.data "RELATED_TOPICS".data) then
    RelatedPrepResult.invalidWidgetType
  else
    match relatedGeoNormalize w.request with
    | Except.error msg => RelatedPrepResult.panicked msg
    | Except.ok r => RelatedPrepResult.prepared r

/-- Index of the last underscore in the character list, as strings.LastIndex
(none models the -1 result). -/
def lastUnderscoreIdx : List Char → Option Nat
  | [] => none
  | c :: rest =>
    match lastUnderscoreIdx rest with
    | some k => some (k + 1)
    | none => if c = '_' then some 0 else none

/-- The slice ID[ind+1:] taken by Less and GetWidgetsByOrder, where ind is
the last-underscore index: the whole string when there is no underscore
(ind = -1), the part after the underscore otherwise. -/
def suffixAfterUnderscore (cs : List Char) : List Char :=
  match lastUnderscoreIdx cs with
  | none => cs
  | some k => cs.drop (k + 1)

/-- strconv.ParseInt with base 10 and bit size 32: an optional sign followed
by one or more decimal digits, whose value must fit in a signed 32-bit
integer; anything else is an error. -/
def parseInt32 (cs : List Char) : Option Int :=
  match cs with
  | [] => none
  | c :: rest =>
    let neg : Bool := c = '-'
    let digits : List Char := if c = '-' ∨ c = '+' then rest else c :: rest
    if digits = [] then none
    else if digits.all (fun d => '0' ≤ d && d ≤ '9') then
      let n : Nat := digits.foldl (fun a d => a * 10 + (d.toNat - 48)) 0
      let v : Int := if neg then -(n : Int) else (n : Int)
      if -2147483648 ≤ v ∧ v ≤ 2147483647 then some v else none
    else none

/-- ExploreResponse.Less (widget collection): a widget without an underscore
in its ID sorts first when it is the left argument and last when it is the
right one; the same for a suffix that fails 32-bit decimal parsing; two
parsed suffixes compare numerically. -/
def lessW (x y : ExploreWidget) : Bool :=
  match lastUnderscoreIdx x.id.data with
  | none => true
  | some ni =>
    match lastUnderscoreIdx y.id.data with
    | none => false
    | some nj =>
      match parseInt32 (x.id.data.drop (ni + 1)) with
      | none => true
      | some vi =>
        match parseInt32 (y.id.data.drop (nj + 1)) with
        | none => false
        | some vj => decide (vi < vj)

/-- One step of Go's insertion sort on a reversed prefix: the new element
moves left past each predecessor while Less holds against it. -/
def goInsertRev (x : ExploreWidget) : List ExploreWidget → List ExploreWidget
  | [] => [x]
  | y :: t => if lessW x y then y :: goInsertRev x t else x :: y :: t

/-- ExploreResponse.Sort.  Go's sort.Sort dispatches to its insertion sort
for ranges of at most twelve elements, which covers every collection in
these claims (five widgets); that insertion sort is modeled exactly: each
successive element is swapped leftwards while Less holds against its
predecessor. -/
def sortWidgets (e : List ExploreWidget) : List ExploreWidget :=
  (e.foldl (fun racc x => goInsertRev x racc) []).reverse

/-- The two exact widget IDs skipped by GetWidgetsByOrder. -/
def excludedId (s : String) : Bool :=
  s = "TIMESERIES" || s = "GEO_MAP"

/-- A widget counts for order i when it is not one of the two excluded IDs
and its suffix parses to exactly i. -/
def orderMatches (i : Int) (w : ExploreWidget) : Bool :=
  !excludedId w.id &&
    decide (parseInt32 (suffixAfterUnderscore w.id.data) = some i)

/-- The loop of ExploreResponse.GetWidgetsByOrder: skip the two un-suffixed
IDs, return the accumulated matches as soon as a suffix fails to parse, and
otherwise collect the widgets whose suffix equals the requested order. -/
def gwboLoop (i : Int) (out : List ExploreWidget) :
    List ExploreWidget → List ExploreWidget
  | [] => out
  | v :: vs =>
    if excludedId v.id then gwboLoop i out vs
    else
      match parseInt32 (suffixAfterUnderscore v.id.data) with
      | none => out
      | some val => if val = i then gwboLoop i (out ++ [v]) vs else gwboLoop i out vs

/-- ExploreResponse.GetWidgetsByOrder. -/
def getWidgetsByOrder (e : List ExploreWidget) (i : Int) : List ExploreWidget :=
  gwboLoop i [] e

/-- A comparison item with every field zero-valued and a nil Geo map. -/
def emptyCompItem : WidgetComparisonItem :=
  { geo := none, time := "", complexKeywordsRestriction := ⟨[]⟩,
    originalTimeRangeForExploreUrl := "" }

/-- A widget sub-request with every field zero-valued: no comparison items,
a restriction whose Geo map is nil, empty strings elsewhere. -/
def baseRequest : WidgetResponse :=
  { time := "", resolution := "", locale := "", restriction := emptyCompItem,
    compItem := [], requestOpt := { property := "", backend := "", category := 0 },
    keywordType := "", metric := [], language := "", trendinessSettings := [],
    dataMode := "", userConfig := [], userCountryCode := "" }

/-- A widget with the given ID and the zero-valued sub-request. -/
def mkTestWidget (s : String) : ExploreWidget :=
  { token := "", widgetType := "", title := "", id := s, request := baseRequest }

/-- A related-queries widget whose restriction Geo map is nil (unset): the
shape produced when the upstream explore answer carries no geo field. -/
def nilGeoRelatedWidget : ExploreWidget := mkTestWidget "RELATED_QUERIES_0"

/-- A related-queries widget whose restriction Geo map is present but
empty. -/
def emptyGeoRelatedWidget : ExploreWidget :=
  { nilGeoRelatedWidget with
    request := { baseRequest with restriction := { emptyCompItem with geo := some [] } } }

/-- A sub-request holding one comparison item whose Geo map is nil: the
input for the geo-population counterexample. -/
def oneItemNilGeoRequest : WidgetResponse :=
  { baseRequest with compItem := [some emptyCompItem] }

/-- A sub-request holding two comparison items, triggering the compare data
mode in InterestByLocation. -/
def twoItemRequest : WidgetResponse :=
  { baseRequest with compItem := [some emptyCompItem, some emptyCompItem] }

/-- A batch-execute line of the expected triple-nested shape whose inner
item list is golang then rust. -/
def demoLine : String :=
  "[[1,2,\"[null,[[\\\"golang\\\",7],[\\\"rust\\\",8]]]\"],4,5]"

/-- A response text whose first two lines are a non-bracket line and an
empty-array line, followed by the qualifying golang-rust line and a trailing
line. -/
def demoText : String :=
  "header junk\n[]\n" ++ demoLine ++ "\n[\"extra\"]"

/-- A 429 response carrying no Set-Cookie header at all (Header.Get yields
the empty string). -/
def resp429NoCookie : GoHttpResponse :=
  { statusCode := 429, status := "429 Too Many Requests", setCookieHeader := "",
    body := "" }

/-- A 429 response carrying a Set-Cookie header with a path attribute. -/
def resp429WithCookie : GoHttpResponse :=
  { statusCode := 429, status := "429 Too Many Requests",
    setCookieHeader := "abc=1; Path=/", body := "" }

/-- A plain 200 response. -/
def resp200 : GoHttpResponse :=
  { statusCode := 200, status := "200 OK", setCookieHeader := "", body := "second" }

/-- A plain 500 response. -/
def resp500 : GoHttpResponse :=
  { statusCode := 500, status := "500 Internal Server Error",
    setCookieHeader := "", body := "error" }

/-- A sender answering 429 without Set-Cookie first and 200 afterwards. -/
def senderNoCookie429 (n : Nat) : Except String GoHttpResponse :=
  if n = 0 then Except.ok resp429NoCookie else Except.ok resp200

/-- A sender answering 500 on every call. -/
def sender500 (_n : Nat) : Except String GoHttpResponse :=
  Except.ok resp500

/-- A sender answering 429 with a cookie first and failing with a network
error on every later call. -/
def senderResendErr (n : Nat) : Except String GoHttpResponse :=
  if n = 0 then Except.ok resp429WithCookie else Except.error "network error"

/-- Splitting on a separator never yields an empty list of pieces, exactly
as strings.Split with a non-empty separator. -/
theorem splitOnChar_ne_nil (sep : Char) (cs : List Char) :
    splitOnChar sep cs ≠ [] := by
  induction cs with
  | nil => simp [splitOnChar]
  | cons c rest ih =>
    simp only [splitOnChar]
    by_cases h : c = sep
    · simp [h]
    · simp only [h, if_false]
      cases hr : splitOnChar sep rest with
      | nil => exact absurd hr ih
      | cons hh tt => simp

/-- The loop over the widgets of GetWidgetsByOrder, when every widget is
either one of the two excluded IDs or has a parsing suffix, appends exactly
the order-matching widgets to the accumulator. -/
theorem gwboLoop_all_parse (i : Int) (e : List ExploreWidget)
    (h : ∀ u ∈ e, excludedId u.id = true ∨
        (parseInt32 (suffixAfterUnderscore u.id.data)).isSome = true) :
    ∀ out, gwboLoop i out e = out ++ e.filter (orderMatches i) := by
  induction e with
  | nil => intro out; simp [gwboLoop]
  | cons v vs ih =>
    intro out
    have hv := h v (by simp)
    have hrest := fun u hu => h u (List.mem_cons_of_mem v hu)
    unfold gwboLoop
    by_cases hex : excludedId v.id
    · rw [if_pos hex, ih hrest out]
      have : orderMatches i v = false := by simp [orderMatches, hex]
      simp [List.filter_cons, this]
    · rw [if_neg hex]
      rcases hv with hv | hv
      · exact absurd hv hex
      · obtain ⟨val, hval⟩ := Option.isSome_iff_exists.mp hv
        rw [hval]
        dsimp only
        by_cases hvi : val = i
        · rw [if_pos hvi, ih hrest (out ++ [v])]
          have : orderMatches i v = true := by
            simp [orderMatches, hex, hval, hvi]
          simp [List.filter_cons, this]
        · rw [if_neg hvi, ih hrest out]
          have : orderMatches i v = false := by
            simp [orderMatches, hval, hvi]
          simp [List.filter_cons, this]

/-- The loop of GetWidgetsByOrder stops and returns the accumulator as soon
as it reaches a non-excluded widget whose suffix fails to parse, having
appended only the matches among the earlier widgets. -/
theorem gwboLoop_bail (i : Int) (pre : List ExploreWidget)
    (h : ∀ u ∈ pre, excludedId u.id = true ∨
        (parseInt32 (suffixAfterUnderscore u.id.data)).isSome = true) :
    ∀ (v : ExploreWidget) (post : List ExploreWidget) (out : List ExploreWidget),
      excludedId v.id = false →
      parseInt32 (suffixAfterUnderscore v.id.data) = none →
      gwboLoop i out (pre ++ v :: post) = out ++ pre.filter (orderMatches i) := by
  induction pre with
  | nil =>
    intro v post out hve hvp
    simp [gwboLoop, hve, hvp]
  | cons u us ih =>
    intro v post out hve hvp
    have hu := h u (by simp)
    have hrest := fun w hw => h w (List.mem_cons_of_mem u hw)
    rw [List.cons_append]
    unfold gwboLoop
    by_cases hex : excludedId u.id
    · rw [if_pos hex, ih hrest v post out hve hvp]
      have : orderMatches i u = false := by simp [orderMatches, hex]
      simp [List.filter_cons, this]
    · rw [if_neg hex]
      rcases hu with hu | hu
      · exact absurd hu hex
      · obtain ⟨val, hval⟩ := Option.isSome_iff_exists.mp hu
        rw [hval]
        dsimp only
        by_cases hvi : val = i
        · rw [if_pos hvi, ih hrest v post (out ++ [u]) hve hvp]
          have : orderMatches i u = true := by
            simp [orderMatches, hex, hval, hvi]
          simp [List.filter_cons, this]
        · rw [if_neg hvi, ih hrest v post out hve hvp]
          have : orderMatches i u = false := by
            simp [orderMatches, hval, hvi]
          simp [List.filter_cons, this]

/-- Claim C8: sorting the widget collection RELATED_QUERIES_2,
RELATED_TOPICS_0, RELATED_QUERIES_1, TIMESERIES, GEO_MAP with Sort yields
the un-suffixed entries first in their original relative order, followed by
the suffixed entries ascending by numeric suffix; an ID without an
underscore is treated as lowest order, and a tied pair of suffixed widgets
keeps its input order through the sort. -/
theorem c8_sort_concrete_and_stable :
    sortWidgets [mkTestWidget "RELATED_QUERIES_2", mkTestWidget "RELATED_TOPICS_0",
        mkTestWidget "RELATED_QUERIES_1", mkTestWidget "TIMESERIES",
        mkTestWidget "GEO_MAP"] =
      [mkTestWidget "TIMESERIES", mkTestWidget "GEO_MAP",
        mkTestWidget "RELATED_TOPICS_0", mkTestWidget "RELATED_QUERIES_1",
        mkTestWidget "RELATED_QUERIES_2"] ∧
    (∀ x y : ExploreWidget, lastUnderscoreIdx x.id.data = none → lessW x y = true) ∧
    (∀ x y : ExploreWidget, lessW x y = false → lessW y x = false →
      sortWidgets [x, y] = [x, y]) := by
  refine ⟨by decide, ?_, ?_⟩
  · intro x y h
    unfold lessW
    rw [h]
  · intro x y _hxy hyx
    simp [sortWidgets, goInsertRev, hyx]

/-- Claim C8 witness: an un-suffixed ID compares below GEO_MAP, and the tied
pair RELATED_QUERIES_1, RELATED_TOPICS_1 keeps its order. -/
theorem c8_sort_concrete_and_stable_witness :
    lessW (mkTestWidget "TIMESERIES") (mkTestWidget "GEO_MAP") = true ∧
    sortWidgets [mkTestWidget "RELATED_QUERIES_1", mkTestWidget "RELATED_TOPICS_1"] =
      [mkTestWidget "RELATED_QUERIES_1", mkTestWidget "RELATED_TOPICS_1"] :=
  ⟨c8_sort_concrete_and_stable.2.1 _ _ (by decide),
   c8_sort_concrete_and_stable.2.2 _ _ (by decide) (by decide)⟩

/-- Claim C10: GetWidgetsByOrder returns, in input order, exactly the
widgets whose suffix after the last underscore parses (strconv.ParseInt,
base 10, 32 bits) to the requested order, the two exact IDs TIMESERIES and
GEO_MAP being skipped — unless it reaches a non-excluded widget whose
suffix fails to parse, in which case it immediately returns the matches
accumulated so far, silently omitting every later widget. -/
theorem c10_get_widgets_by_order :
    (∀ (e : List ExploreWidget) (i : Int),
      (∀ u ∈ e, excludedId u.id = true ∨
          (parseInt32 (suffixAfterUnderscore u.id.data)).isSome = true) →
      getWidgetsByOrder e i = e.filter (orderMatches i)) ∧
    (∀ (pre : List ExploreWidget) (v : ExploreWidget) (post : List ExploreWidget)
        (i : Int),
      (∀ u ∈ pre, excludedId u.id = true ∨
          (parseInt32 (suffixAfterUnderscore u.id.data)).isSome = true) →
      excludedId v.id = false →
      parseInt32 (suffixAfterUnderscore v.id.data) = none →
      getWidgetsByOrder (pre ++ v :: post) i = pre.filter (orderMatches i)) := by
  constructor
  · intro e i h
    simpa using gwboLoop_all_parse i e h []
  · intro pre v post i h hve hvp
    simpa using gwboLoop_bail i pre h v post [] hve hvp

/-- Claim C10 witness: on a six-widget collection every suffix parses and
order one selects its two widgets; with a malformed ID in the middle the
scan stops after the first widget. -/
theorem c10_get_widgets_by_order_witness :
    getWidgetsByOrder
        [mkTestWidget "RELATED_QUERIES_0", mkTestWidget "RELATED_TOPICS_0",
          mkTestWidget "RELATED_QUERIES_1", mkTestWidget "RELATED_TOPICS_1",
          mkTestWidget "TIMESERIES", mkTestWidget "GEO_MAP"] 1 =
      [mkTestWidget "RELATED_QUERIES_0", mkTestWidget "RELATED_TOPICS_0",
          mkTestWidget "RELATED_QUERIES_1", mkTestWidget "RELATED_TOPICS_1",
          mkTestWidget "TIMESERIES", mkTestWidget "GEO_MAP"].filter (orderMatches 1) ∧
    getWidgetsByOrder
        [mkTestWidget "RELATED_QUERIES_0", mkTestWidget "BROKEN",
          mkTestWidget "RELATED_QUERIES_1"] 0 =
      [mkTestWidget "RELATED_QUERIES_0"].filter (orderMatches 0) :=
  ⟨c10_get_widgets_by_order.1 _ 1 (by decide),
   c10_get_widgets_by_order.2 [mkTestWidget "RELATED_QUERIES_0"]
     (mkTestWidget "BROKEN") [mkTestWidget "RELATED_QUERIES_1"] 0
     (by decide) (by decide) (by decide)⟩

/-- A line whose yield is a list was bracket-shaped and its per-line decode
returned exactly that list. -/
theorem lineYield_eq_some (l : String) (ts : List String)
    (h : lineYield l = some ts) :
    isBracketLine ⟨goTrimSpace l.data⟩ = true ∧
      lineParse ⟨goTrimSpace l.data⟩ = some ts := by
  simp only [lineYield] at h
  by_cases hb : isBracketLine ⟨goTrimSpace l.data⟩
  · exact ⟨hb, by simpa [hb] using h⟩
  · simp [hb] at h

/-- A line yielding nothing — skipped, failed, or successful with no items —
leaves the scan over the remaining lines unchanged. -/
theorem extractLoop_skip (l : String) (rest : List String)
    (h : lineYield l = none ∨ lineYield l = some []) :
    extractLoop [] (l :: rest) = extractLoop [] rest := by
  simp only [extractLoop]
  simp only [lineYield] at h
  by_cases hb : isBracketLine ⟨goTrimSpace l.data⟩
  · simp only [hb, if_true] at h ⊢
    cases hp : lineParse ⟨goTrimSpace l.data⟩ with
    | none => rfl
    | some ts =>
      rcases h with h | h
      · rw [hp] at h
        exact absurd h (by simp)
      · rw [hp] at h
        injection h with h'
        subst h'
        simp
  · simp only [hb, if_false]
    simp [hb]

/-- A line yielding a non-empty list stops the scan with exactly that
list. -/
theorem extractLoop_hit (l : String) (rest : List String) (ts : List String)
    (h : lineYield l = some ts) (hne : ts ≠ []) :
    extractLoop [] (l :: rest) = some ts := by
  obtain ⟨hb, hp⟩ := lineYield_eq_some l ts h
  simp only [extractLoop, hb, if_true, hp]
  simp [List.length_pos, hne]

/-- One scan step, characterized: the scan of a line list fails exactly when
its first line yields nothing and the scan of the remaining lines fails. -/
theorem extractLoop_cons_none_iff (l : String) (rest : List String) :
    extractLoop [] (l :: rest) = none ↔
      (lineYield l = none ∨ lineYield l = some []) ∧
        extractLoop [] rest = none := by
  cases hy : lineYield l with
  | none =>
    rw [extractLoop_skip l rest (Or.inl hy)]
    simp
  | some ts =>
    by_cases hne : ts = []
    · subst hne
      rw [extractLoop_skip l rest (Or.inr hy)]
      simp
    · rw [extractLoop_hit l rest ts hy hne]
      simp [hne]

/-- The scan fails exactly when every line yields nothing. -/
theorem extractLoop_none_iff (lines : List String) :
    extractLoop [] lines = none ↔
      ∀ l ∈ lines, lineYield l = none ∨ lineYield l = some [] := by
  induction lines with
  | nil => simp [extractLoop]
  | cons l rest ih =>
    rw [extractLoop_cons_none_iff, ih, List.forall_mem_cons]

/-- Claim C6: a line decoding to the expected triple-nested shape — a
top-level array of more than two elements whose first element is an array of
at least three elements whose third element is a string that itself decodes
to an array of more than one element whose second element is the item list —
contributes the first element of each qualifying item list, in order; the
scan returns the contribution of the first line yielding a non-empty
accumulation; in particular the golang-rust demo response extracts exactly
golang then rust. -/
theorem c6_batch_extractor :
    (∀ (t : String) (first mid : List JVal) (s : String) (d0 : JVal)
        (items dRest : List JVal),
      decodeIntoSlice t = some (JVal.jarr first :: mid) →
      2 < (JVal.jarr first :: mid).length →
      3 ≤ first.length →
      first[2]? = some (JVal.jstr s) →
      decodeIntoSlice s = some (d0 :: JVal.jarr items :: dRest) →
      lineParse t = some (items.filterMap itemHead?)) ∧
    (∀ (pre : List String) (line : String) (post : List String)
        (ts : List String),
      (∀ l ∈ pre, lineYield l = none ∨ lineYield l = some []) →
      lineYield line = some ts → ts ≠ [] →
      extractLoop [] (pre ++ line :: post) = some ts) ∧
    extractJSONFromResponse demoText = Except.ok ["golang", "rust"] := by
  refine ⟨?_, ?_, ?_⟩
  · intro t first mid s d0 items dRest h1 h2 h3 h4 h5
    have hlt : ¬first.length < 3 := by omega
    have hgt : (d0 :: JVal.jarr items :: dRest).length > 1 := by simp
    simp [lineParse, h1, h2, h4, h5, hlt, hgt]
    intro hle
    exfalso
    simp only [List.length_cons] at h2
    omega
  · intro pre line post ts hpre hline hne
    induction pre with
    | nil => exact extractLoop_hit line post ts hline hne
    | cons p ps ih =>
      rw [List.cons_append, extractLoop_skip p _ (hpre p (by simp))]
      exact ih (fun l hl => hpre l (by simp [hl]))
  · rfl

/-- Claim C6 witness: the demo line satisfies the shape hypotheses and
contributes golang then rust, and a scan whose first line yields nothing
returns the demo line's contribution. -/
theorem c6_batch_extractor_witness :
    lineParse demoLine = some ["golang", "rust"] ∧
    extractLoop [] ["header junk", demoLine] = some ["golang", "rust"] :=
  ⟨c6_batch_extractor.1 demoLine
      [JVal.jnum "1", JVal.jnum "2",
        JVal.jstr "[null,[[\"golang\",7],[\"rust\",8]]]"]
      [JVal.jnum "4", JVal.jnum "5"]
      "[null,[[\"golang\",7],[\"rust\",8]]]"
      JVal.null
      [JVal.jarr [JVal.jstr "golang", JVal.jnum "7"],
        JVal.jarr [JVal.jstr "rust", JVal.jnum "8"]]
      []
      rfl (by decide) (by decide) rfl rfl,
   c6_batch_extractor.2.1 ["header junk"] demoLine [] ["golang", "rust"]
     (by
       intro l hl
       rw [List.mem_singleton] at hl
       subst hl
       exact Or.inl rfl)
     rfl (by decide)⟩

/-- Claim C7: a structural mismatch while decoding a bracket-shaped line
aborts only that line — the scan continues identically over the remaining
lines — and the operation returns the no-valid-JSON error exactly when no
line yields a non-empty contribution. -/
theorem c7_line_failure_isolated :
    (∀ (line : String) (rest : List String),
      isBracketLine ⟨goTrimSpace line.data⟩ = true →
      lineParse ⟨goTrimSpace line.data⟩ = none →
      extractLoop [] (line :: rest) = extractLoop [] rest) ∧
    (∀ text : String,
      extractJSONFromResponse text =
          Except.error "no valid JSON found in response" ↔
        ∀ l ∈ splitLines text, lineYield l = none ∨ lineYield l = some []) := by
  constructor
  · intro line rest hb hp
    exact extractLoop_skip line rest (Or.inl (by simp [lineYield, hb, hp]))
  · intro text
    have key : extractJSONFromResponse text =
        Except.error "no valid JSON found in response" ↔
          extractLoop [] (splitLines text) = none := by
      unfold extractJSONFromResponse
      cases h : extractLoop [] (splitLines text) with
      | none => simp
      | some r => simp
    rw [key, extractLoop_none_iff]

/-- Claim C7 witness: a bracket-shaped line that fails to decode is skipped
without aborting the scan, and a response with no qualifying line reports
the no-valid-JSON error. -/
theorem c7_line_failure_isolated_witness :
    extractLoop [] ["[broken]"] = extractLoop [] ([] : List String) ∧
    extractJSONFromResponse "invalid response" =
      Except.error "no valid JSON found in response" :=
  ⟨c7_line_failure_isolated.1 "[broken]" [] rfl rfl,
   (c7_line_failure_isolated.2 "invalid response").mpr (by
     have hs : splitLines "invalid response" = ["invalid response"] := rfl
     rw [hs]
     intro l hl
     rw [List.mem_singleton] at hl
     subst hl
     exact Or.inl rfl)⟩

/-- Claim C3 counterexample: with a 429 first response carrying no
Set-Cookie header at all (Header.Get yields the empty string), the client
still resends — two requests reach the sender, the second response's body is
returned, and the stored cookie is the empty string — refuting that a retry
happens only when the header is present and non-empty. -/
theorem c3_retry_without_cookie_cex :
    resp429NoCookie.setCookieHeader = "" ∧
    resp429NoCookie.statusCode = 429 ∧
    (clientDo "" "https://example.com/test" senderNoCookie429).sentRequests.length = 2 ∧
    (clientDo "" "https://example.com/test" senderNoCookie429).outcome =
      Except.ok "second" ∧
    (clientDo "" "https://example.com/test" senderNoCookie429).cookie = "" :=
  ⟨rfl, rfl, rfl, rfl, rfl⟩

/-- Claim C3 (amended): whenever the first response of a transport operation
has status 429, the client — regardless of the Set-Cookie header — stores
the header's first semicolon-delimited segment (the empty string when the
header is absent) as the session cookie, sets it as the Cookie header of the
current request, and resends exactly once: the sender sees exactly the
original request followed by the cookie-bearing one, and the outcome is
decided by the second answer with no further retry. -/
theorem c3_always_retries_once_with_cookie (r0 : GoRequest) (ck : String)
    (sender : Nat → Except String GoHttpResponse) (resp : GoHttpResponse)
    (h0 : sender 0 = Except.ok resp) (h429 : resp.statusCode = 429) :
    (runTransport r0 ck sender).sentRequests =
        [r0, { r0 with
          cookieHeader := some (firstCookieSegment resp.setCookieHeader) }] ∧
    (runTransport r0 ck sender).cookie = firstCookieSegment resp.setCookieHeader ∧
    (∀ e, sender 1 = Except.error e →
      (runTransport r0 ck sender).outcome =
        Except.error (TransportError.resendFailed e)) ∧
    (∀ resp2, sender 1 = Except.ok resp2 →
      (runTransport r0 ck sender).outcome = respOutcome resp2) := by
  obtain ⟨seg, t, hsplit⟩ :=
    List.exists_cons_of_ne_nil (splitOnChar_ne_nil ';' resp.setCookieHeader.data)
  have hfcs : firstCookieSegment resp.setCookieHeader = ⟨seg⟩ := by
    unfold firstCookieSegment
    rw [hsplit]
  refine ⟨?_, ?_, ?_, ?_⟩
  · cases h1 : sender 1 with
    | error e => simp [runTransport, h0, h429, hsplit, h1, hfcs]
    | ok resp2 => simp [runTransport, h0, h429, hsplit, h1, hfcs]
  · cases h1 : sender 1 with
    | error e => simp [runTransport, h0, h429, hsplit, h1, hfcs]
    | ok resp2 => simp [runTransport, h0, h429, hsplit, h1, hfcs]
  · intro e h1
    simp [runTransport, h0, h429, hsplit, h1]
  · intro resp2 h1
    simp [runTransport, h0, h429, hsplit, h1]

/-- Claim C3 witness: concrete 429-then-error run — the sender sees the bare
request then the cookie-bearing request, and the first Set-Cookie segment is
stored. -/
theorem c3_always_retries_once_with_cookie_witness :
    (runTransport (getRequest "" "https://example.com/test") ""
        senderResendErr).sentRequests =
      [getRequest "" "https://example.com/test",
        { getRequest "" "https://example.com/test" with
          cookieHeader := some (firstCookieSegment resp429WithCookie.setCookieHeader) }] ∧
    (runTransport (getRequest "" "https://example.com/test") ""
        senderResendErr).cookie =
      firstCookieSegment resp429WithCookie.setCookieHeader :=
  ⟨(c3_always_retries_once_with_cookie _ _ senderResendErr resp429WithCookie
      rfl rfl).1,
   (c3_always_retries_once_with_cookie _ _ senderResendErr resp429WithCookie
      rfl rfl).2.1⟩

/-- Claim C4: when the first response's status is neither 429 nor 200, the
operation fails after exactly one call to the sender, with an
ErrRequestFailed error whose payload and rendered message carry the numeric
status code and the status text. -/
theorem c4_non200_fails_after_one_call (r0 : GoRequest) (ck : String)
    (sender : Nat → Except String GoHttpResponse) (resp : GoHttpResponse)
    (h0 : sender 0 = Except.ok resp) (h429 : resp.statusCode ≠ 429)
    (h200 : resp.statusCode ≠ 200) :
    (runTransport r0 ck sender).outcome =
        Except.error (TransportError.requestFailed resp.statusCode resp.status) ∧
    (runTransport r0 ck sender).sentRequests = [r0] ∧
    (TransportError.requestFailed resp.statusCode resp.status).message =
      "failed to perform http request: request data: code = " ++
        toString resp.statusCode ++ ", status = " ++ resp.status := by
  refine ⟨?_, ?_, rfl⟩ <;> simp [runTransport, h0, h429, respOutcome, h200]

/-- Claim C4 witness: a sender answering 500 on every call fails after one
request with an error carrying code 500 and its status text. -/
theorem c4_non200_fails_after_one_call_witness :
    (runTransport (getRequest "" "https://example.com/test") ""
        sender500).outcome =
      Except.error (TransportError.requestFailed resp500.statusCode
        resp500.status) ∧
    (runTransport (getRequest "" "https://example.com/test") ""
        sender500).sentRequests = [getRequest "" "https://example.com/test"] :=
  ⟨(c4_non200_fails_after_one_call _ _ sender500 resp500 rfl
      (by decide) (by decide)).1,
   (c4_non200_fails_after_one_call _ _ sender500 resp500 rfl
      (by decide) (by decide)).2.1⟩

/-- Claim C5 counterexample: when the post-429 resend fails, the sender's
error is returned as-is — its rendered message is exactly the cause with no
"failed to perform request" wrapping — refuting that both sends wrap. -/
theorem c5_resend_error_unwrapped_cex :
    (clientDo "" "https://example.com/test" senderResendErr).outcome =
        Except.error (TransportError.resendFailed "network error") ∧
    (TransportError.resendFailed "network error").message = "network error" ∧
    TransportError.resendFailed "network error" ≠
      TransportError.doRequestFailed "network error" :=
  ⟨rfl, rfl, by decide⟩

/-- Claim C5 (amended): an error from the injected sender stops the
operation immediately with no further send; an initial-send error is
returned wrapped with the "failed to perform request" message, while an
error on the single post-429 resend is returned as-is, unwrapped. -/
theorem c5_sender_error_propagation :
    (∀ (r0 : GoRequest) (ck : String)
        (sender : Nat → Except String GoHttpResponse) (e : String),
      sender 0 = Except.error e →
      runTransport r0 ck sender =
        ⟨Except.error (TransportError.doRequestFailed e), [r0], ck⟩ ∧
      (TransportError.doRequestFailed e).message =
        "failed to perform request: " ++ e) ∧
    (∀ (r0 : GoRequest) (ck : String)
        (sender : Nat → Except String GoHttpResponse)
        (resp : GoHttpResponse) (e : String),
      sender 0 = Except.ok resp → resp.statusCode = 429 →
      sender 1 = Except.error e →
      (runTransport r0 ck sender).outcome =
          Except.error (TransportError.resendFailed e) ∧
      (runTransport r0 ck sender).sentRequests.length = 2) := by
  constructor
  · intro r0 ck sender e h0
    refine ⟨?_, rfl⟩
    simp [runTransport, h0]
  · intro r0 ck sender resp e h0 h429 h1
    obtain ⟨seg, t, hsplit⟩ :=
      List.exists_cons_of_ne_nil (splitOnChar_ne_nil ';' resp.setCookieHeader.data)
    constructor <;> simp [runTransport, h0, h429, hsplit, h1]

/-- Claim C5 witness: a sender failing at once yields the wrapped error, and
the 429-then-error sender yields the unwrapped resend error after two
sends. -/
theorem c5_sender_error_propagation_witness :
    runTransport (getRequest "" "https://example.com/test") ""
        (fun _ => Except.error "boom") =
      ⟨Except.error (TransportError.doRequestFailed "boom"),
        [getRequest "" "https://example.com/test"], ""⟩ ∧
    (runTransport (getRequest "" "https://example.com/test") ""
        senderResendErr).sentRequests.length = 2 :=
  ⟨(c5_sender_error_propagation.1 _ _ _ "boom" rfl).1,
   (c5_sender_error_propagation.2 _ _ senderResendErr resp429WithCookie
      "network error" rfl rfl rfl).2⟩

/-- Claim C1 (code-bug evidence): Related on a related-queries widget whose
restriction Geo map is nil does not normalize it to a present single-entry
map — the length-zero test passes and the map assignment then panics
(assignment to entry in nil map), so the core does have a panic path; with a
present-but-empty Geo map the same normalization succeeds with the
single-entry empty-string map. -/
theorem c1_related_nil_geo_panics :
    relatedPrepare nilGeoRelatedWidget =
        RelatedPrepResult.panicked "assignment to entry in nil map" ∧
    relatedPrepare emptyGeoRelatedWidget =
      RelatedPrepResult.prepared
        { baseRequest with
          restriction := { emptyCompItem with geo := some [("", "")] } } :=
  ⟨rfl, rfl⟩

/-- Claim C2 counterexample: InterestByLocation applies no geo population —
after its pre-serialization step the single comparison item's Geo map is
still nil, absent rather than present-but-empty. -/
theorem c2_geo_not_populated_by_location_cex :
    (interestByLocationPrep oneItemNilGeoRequest).compItem =
        [some emptyCompItem] ∧
    emptyCompItem.geo = none :=
  ⟨rfl, rfl⟩

/-- Claim C2 (amended): the defensive geo population happens in the
time-series fetch — InterestOverTime replaces the Geo of every present
comparison item whose Geo has length zero (nil included) by the single-entry
empty-string map — and in Related for a present-but-empty restriction Geo
map; InterestByLocation leaves its comparison items untouched. -/
theorem c2_geo_population_sites :
    (∀ (r : WidgetResponse) (k : Nat) (item : WidgetComparisonItem),
      r.compItem[k]? = some (some item) → geoLen item.geo = 0 →
      (interestOverTimePrep r).compItem[k]? =
        some (some { item with geo := some [("", "")] })) ∧
    (∀ r : WidgetResponse, r.restriction.geo = some [] →
      relatedGeoNormalize r =
        Except.ok
          { r with
            restriction := { r.restriction with geo := some [("", "")] } }) ∧
    (∀ r : WidgetResponse, (interestByLocationPrep r).compItem = r.compItem) := by
  refine ⟨?_, ?_, ?_⟩
  · intro r k item hk hg
    simp [interestOverTimePrep, List.getElem?_map, hk, normalizeCompItemGeo, hg]
  · intro r hg
    simp [relatedGeoNormalize, hg, geoLen, mapSet]
  · intro r
    unfold interestByLocationPrep
    by_cases h : r.compItem.length > 1 <;> simp [h]

/-- Claim C2 witness: on a one-item sub-request with nil geo the
time-series preparation populates the empty-string map, and the
present-but-empty restriction geo of the related widget is populated. -/
theorem c2_geo_population_sites_witness :
    (interestOverTimePrep oneItemNilGeoRequest).compItem[0]? =
        some (some { emptyCompItem with geo := some [("", "")] }) ∧
    relatedGeoNormalize emptyGeoRelatedWidget.request =
      Except.ok
        { emptyGeoRelatedWidget.request with
          restriction :=
            { emptyGeoRelatedWidget.request.restriction with
              geo := some [("", "")] } } :=
  ⟨c2_geo_population_sites.1 oneItemNilGeoRequest 0 emptyCompItem rfl rfl,
   c2_geo_population_sites.2.1 emptyGeoRelatedWidget.request rfl⟩

/-- Claim C9 counterexample: InterestByLocation mutates the widget's
embedded sub-request beyond geo normalization — with two comparison items it
rewrites DataMode from the empty string to PERCENTAGES while the comparison
items and the restriction (all geo state) stay untouched. -/
theorem c9_datamode_mutation_cex :
    (interestByLocationPrep twoItemRequest).dataMode = "PERCENTAGES" ∧
    twoItemRequest.dataMode = "" ∧
    (interestByLocationPrep twoItemRequest).compItem = twoItemRequest.compItem ∧
    (interestByLocationPrep twoItemRequest).restriction =
      twoItemRequest.restriction ∧
    interestByLocationPrep twoItemRequest ≠ twoItemRequest :=
  ⟨rfl, rfl, rfl, rfl, by decide⟩

/-- Claim C9 (amended): the detail-fetch preparations consume the widget's
sub-request read-only except for the geo normalizations — InterestOverTime
on its comparison items, Related on its restriction — and
InterestByLocation's setting of DataMode to PERCENTAGES for multi-item
requests: every other field survives each preparation unchanged. -/
theorem c9_read_only_except_normalization :
    (∀ r : WidgetResponse,
      (interestOverTimePrep r).time = r.time ∧
      (interestOverTimePrep r).resolution = r.resolution ∧
      (interestOverTimePrep r).locale = r.locale ∧
      (interestOverTimePrep r).restriction = r.restriction ∧
      (interestOverTimePrep r).requestOpt = r.requestOpt ∧
      (interestOverTimePrep r).keywordType = r.keywordType ∧
      (interestOverTimePrep r).metric = r.metric ∧
      (interestOverTimePrep r).language = r.language ∧
      (interestOverTimePrep r).trendinessSettings = r.trendinessSettings ∧
      (interestOverTimePrep r).dataMode = r.dataMode ∧
      (interestOverTimePrep r).userConfig = r.userConfig ∧
      (interestOverTimePrep r).userCountryCode = r.userCountryCode) ∧
    (∀ item : WidgetComparisonItem,
      normalizeCompItemGeo (some item) =
        some { item with
          geo := if geoLen item.geo = 0 then some [("", "")] else item.geo }) ∧
    (∀ r : WidgetResponse,
      interestByLocationPrep r =
        { r with
          dataMode :=
            if r.compItem.length > 1 then "PERCENTAGES" else r.dataMode }) ∧
    (∀ (r r' : WidgetResponse), relatedGeoNormalize r = Except.ok r' →
      r' = { r with
        restriction := { r.restriction with geo := r'.restriction.geo } }) := by
  refine ⟨?_, ?_, ?_, ?_⟩
  · intro r
    exact ⟨rfl, rfl, rfl, rfl, rfl, rfl, rfl, rfl, rfl, rfl, rfl, rfl⟩
  · intro item
    unfold normalizeCompItemGeo
    by_cases h : geoLen item.geo = 0 <;> simp [h]
  · intro r
    unfold interestByLocationPrep
    by_cases h : r.compItem.length > 1 <;> simp [h]
  · intro r r' h
    unfold relatedGeoNormalize at h
    by_cases hg : geoLen r.restriction.geo = 0
    · rw [if_pos hg] at h
      cases hgeo : r.restriction.geo with
      | none =>
        rw [hgeo] at h
        exact absurd h (by simp)
      | some m =>
        rw [hgeo] at h
        simp only [Except.ok.injEq] at h
        subst h
        simp [hgeo]
    · rw [if_neg hg] at h
      simp only [Except.ok.injEq] at h
      subst h
      rfl

/-- Claim C9 witness: Related's normalization on the present-but-empty geo
widget changes nothing outside the restriction's geo field. -/
theorem c9_read_only_except_normalization_witness :
    { baseRequest with
        restriction := { emptyCompItem with geo := some [("", "")] } } =
      { emptyGeoRelatedWidget.request with
        restriction :=
          { emptyGeoRelatedWidget.request.restriction with
            geo := ({ baseRequest with
              restriction :=
                { emptyCompItem with
                  geo := some [("", "")] } } : WidgetResponse).restriction.geo } } :=
  c9_read_only_except_normalization.2.2.2 emptyGeoRelatedWidget.request
    { baseRequest with
      restriction := { emptyCompItem with geo := some [("", "")] } } rfl

end GoogleTrends
